import Mathlib

/-!
Verification development for the NOAA ESRL BRW daily file splitter
(noaa_esrl_brw_daily_file_splitter.py).

The script is a linear batch pipeline: read a whitespace-delimited
14-column ASCII file into a table, replace three documented missing-data
sentinels by NaN, derive per-row date and timestamp values with
pandas.to_datetime, group the rows by date (pandas groupby, which sorts
the group keys), and for each date bucket write one CSV file and one
four-panel chart image.

The shallow embedding below models:
  * a parsed input row (RawRow), the sentinel-cleaned row (CleanRow) and
    the row with the two derived columns appended (Row);
  * the lenient read step of pd.read_csv under a fixed 14-name schema:
    only a missing file errors; each present line is fitted to exactly
    14 cells (leading extras consumed as index levels, short rows
    NaN-padded) with no column-count or field validation;
  * calendar validation as performed by pandas.to_datetime: assembling
    the date from year/month/day raises on an invalid Gregorian date or
    one outside the exact datetime64[ns] day range (1677-09-22 to
    2262-04-11), modeled as Option.none; the hour column is then added
    as a timedelta with no range check, so an out-of-range hour rolls
    over into the timestamp instead of failing (day arithmetic via the
    standard civil-calendar day-number conversion);
  * grouping as pandas groupby with the default sort=True: the distinct
    dates, sorted ascending, each paired with the sub-list of rows
    carrying that date in original file order;
  * CSV emission (pandas to_csv with index=False): one file per bucket,
    a 16-name header, one textual cell per field, the derived columns
    rendered in strftime style; numeric cells are rendered by an
    injective textual encoding and re-parsed by the inverse, modeling
    the value-faithful round trip of to_csv / read_csv;
  * chart rendering: matplotlib's ax.plot raises a ValueError when the
    fixed 24-element hour axis and a data series differ in length, so
    rendering succeeds exactly for 24-row buckets (modeled as Option);
  * the run as a trace of filesystem events (directory creation, CSV
    writes, image writes) together with a success flag.
-/

/-- The hard-coded 14-column schema of the input file (COLUMN_NAMES in
the script). -/
def COLUMN_NAMES : List String :=
  ["station", "year", "month", "day", "hour", "wind_direction", "wind_speed",
   "wind_steadiness", "pressure", "temperature_at_2m", "temperature_at_10m",
   "temperature_at_top", "relative_humidity", "precipitation"]

/-- A parsed input row: the 14 whitespace-separated fields of one line,
as read by pd.read_csv with the fixed schema.  Numeric measurement
fields are modeled as exact rationals. -/
structure RawRow where
  station : String
  year : Int
  month : Int
  day : Int
  hour : Int
  wind_direction : ℚ
  wind_speed : ℚ
  wind_steadiness : ℚ
  pressure : ℚ
  temperature_at_2m : ℚ
  temperature_at_10m : ℚ
  temperature_at_top : ℚ
  relative_humidity : ℚ
  precipitation : ℚ
deriving DecidableEq

/-- A row after sentinel cleaning: the three cleaned columns may now
hold the absent marker (np.nan), modeled as Option.none. -/
structure CleanRow where
  station : String
  year : Int
  month : Int
  day : Int
  hour : Int
  wind_direction : ℚ
  wind_speed : ℚ
  wind_steadiness : ℚ
  pressure : ℚ
  temperature_at_2m : ℚ
  temperature_at_10m : ℚ
  temperature_at_top : Option ℚ
  relative_humidity : Option ℚ
  precipitation : Option ℚ
deriving DecidableEq

/-- A calendar date, the value placed in the derived "date" column. -/
structure Date where
  year : Int
  month : Int
  day : Int
deriving DecidableEq

/-- A full date-time, the value placed in the derived "timestamp"
column. -/
structure DateTime where
  year : Int
  month : Int
  day : Int
  hour : Int
deriving DecidableEq

/-- A row of the final table: the cleaned fields plus the two derived
columns date and timestamp appended by the script. -/
structure Row where
  station : String
  year : Int
  month : Int
  day : Int
  hour : Int
  wind_direction : ℚ
  wind_speed : ℚ
  wind_steadiness : ℚ
  pressure : ℚ
  temperature_at_2m : ℚ
  temperature_at_10m : ℚ
  temperature_at_top : Option ℚ
  relative_humidity : Option ℚ
  precipitation : Option ℚ
  date : Date
  timestamp : DateTime
deriving DecidableEq

/-- The exact rational value of the float literal -999.9, the
temperature_at_top sentinel, written in reduced form (the lemma
tTopSentinel_eq below identifies it with -9999 / 10). -/
def tTopSentinel : ℚ := ⟨-9999, 10, by decide, by decide⟩

/-- Sentinel cleaning (lines 97-99 of the script): by exact equality,
temperature_at_top = -999.9, relative_humidity = -99 and
precipitation = -99 become NaN; every other value is untouched. -/
def clean (r : RawRow) : CleanRow :=
  { station := r.station
    year := r.year
    month := r.month
    day := r.day
    hour := r.hour
    wind_direction := r.wind_direction
    wind_speed := r.wind_speed
    wind_steadiness := r.wind_steadiness
    pressure := r.pressure
    temperature_at_2m := r.temperature_at_2m
    temperature_at_10m := r.temperature_at_10m
    temperature_at_top :=
      if r.temperature_at_top = tTopSentinel then none else some r.temperature_at_top
    relative_humidity :=
      if r.relative_humidity = -99 then none else some r.relative_humidity
    precipitation :=
      if r.precipitation = -99 then none else some r.precipitation }

/-- Gregorian leap-year test. -/
def isLeap (y : Int) : Bool :=
  (y % 4 == 0 && y % 100 != 0) || y % 400 == 0

/-- Number of days in a month of the Gregorian calendar. -/
def daysInMonth (y m : Int) : Int :=
  if m = 2 then (if isLeap y then 29 else 28)
  else if m = 4 ∨ m = 6 ∨ m = 9 ∨ m = 11 then 30
  else 31

/-- Days since 1970-01-01 of a Gregorian year/month/day triple
(Hinnant's civil-calendar algorithm, floor divisions throughout).
This is the day arithmetic underlying numpy datetime64: to_datetime
assembles the date part of a row from its year, month and day
columns as such a day count. -/
def daysFromCivil (y m d : Int) : Int :=
  let y2 := y - (if m ≤ 2 then 1 else 0)
  let era := y2.fdiv 400
  let yoe := y2 - era * 400
  let doy := (153 * (m + (if 2 < m then -3 else 9)) + 2).fdiv 5 + d - 1
  let doe := yoe * 365 + yoe.fdiv 4 - yoe.fdiv 100 + doy
  era * 146097 + doe - 719468

/-- Gregorian year/month/day of a days-since-1970-01-01 count (inverse
of daysFromCivil). -/
def civilFromDays (z : Int) : Date :=
  let z2 := z + 719468
  let era := z2.fdiv 146097
  let doe := z2 - era * 146097
  let yoe := (doe - doe.fdiv 1460 + doe.fdiv 36524 - doe.fdiv 146096).fdiv 365
  let y := yoe + era * 400
  let doy := doe - (365 * yoe + yoe.fdiv 4 - yoe.fdiv 100)
  let mp := (5 * doy + 2).fdiv 153
  let d := doy - (153 * mp + 2).fdiv 5 + 1
  let m := mp + (if mp < 10 then 3 else -9)
  ⟨y + (if m ≤ 2 then 1 else 0), m, d⟩

/-- Earliest midnight representable in datetime64[ns]: the epoch
minimum is 1677-09-21 00:12:43.145224193, so the first representable
whole day is 1677-09-22. -/
def minDateDay : Int := daysFromCivil 1677 9 22

/-- Latest midnight representable in datetime64[ns] (the maximum is
2262-04-11 23:47:16.854775807). -/
def maxDateDay : Int := daysFromCivil 2262 4 11

/-- Earliest whole-hour instant (in hours since the 1970-01-01 epoch)
representable in datetime64[ns]: 1677-09-21 01:00. -/
def minInstantHours : Int := daysFromCivil 1677 9 21 * 24 + 1

/-- Latest representable whole-hour instant: 2262-04-11 23:00. -/
def maxInstantHours : Int := daysFromCivil 2262 4 11 * 24 + 23

/-- The instant, in hours since the epoch, assembled by to_datetime
from year/month/day/hour columns: the date's day count plus the hour
column added as a timedelta (the hour is NOT validated against 0..23;
out-of-range hours simply shift the instant). -/
def instantHours (y m d h : Int) : Int := daysFromCivil y m d * 24 + h

/-- The calendar view of a whole-hour instant: the timestamp value
to_datetime stores (and to_csv later prints), with any out-of-range
hour already rolled over into the day. -/
def timestampOfInstant (t : Int) : DateTime :=
  let c := civilFromDays (t.fdiv 24)
  ⟨c.year, c.month, c.day, t.fmod 24⟩

/-- Validity of a year/month/day triple as accepted by
pandas.to_datetime (line 102): a real Gregorian date whose midnight is
representable in datetime64[ns] (exact bounds 1677-09-22 to
2262-04-11); anything else raises.  No such check exists for the hour
column. -/
def validDate (y m d : Int) : Prop :=
  1 ≤ m ∧ m ≤ 12 ∧ 1 ≤ d ∧ d ≤ daysInMonth y m ∧
    minDateDay ≤ daysFromCivil y m d ∧ daysFromCivil y m d ≤ maxDateDay

instance (y m d : Int) : Decidable (validDate y m d) :=
  inferInstanceAs
    (Decidable (1 ≤ m ∧ m ≤ 12 ∧ 1 ≤ d ∧ d ≤ daysInMonth y m ∧
      minDateDay ≤ daysFromCivil y m d ∧ daysFromCivil y m d ≤ maxDateDay))

/-- Date key derivation (lines 102-103 of the script).  Line 102
(date from year/month/day) raises on an invalid or out-of-bounds
calendar date, modeled as none.  Line 103 adds the hour column as a
timedelta with no range check: an out-of-range hour does not fail but
silently rolls over into the timestamp's day; the addition only fails
if the resulting instant overflows the datetime64[ns] range.  On
success the derived date and timestamp columns are appended to the
row. -/
def derive (r : CleanRow) : Option Row :=
  if validDate r.year r.month r.day then
    if minInstantHours ≤ instantHours r.year r.month r.day r.hour ∧
        instantHours r.year r.month r.day r.hour ≤ maxInstantHours then
      some
        { station := r.station
          year := r.year
          month := r.month
          day := r.day
          hour := r.hour
          wind_direction := r.wind_direction
          wind_speed := r.wind_speed
          wind_steadiness := r.wind_steadiness
          pressure := r.pressure
          temperature_at_2m := r.temperature_at_2m
          temperature_at_10m := r.temperature_at_10m
          temperature_at_top := r.temperature_at_top
          relative_humidity := r.relative_humidity
          precipitation := r.precipitation
          date := ⟨r.year, r.month, r.day⟩
          timestamp := timestampOfInstant (instantHours r.year r.month r.day r.hour) }
    else none
  else none

/-- Fallible map over a list: some list of results when the function
succeeds on every element, none as soon as it fails on one.  Used to
model vectorized pandas operations that raise on any bad element. -/
def listMapOpt {α β : Type} (f : α → Option β) : List α → Option (List β)
  | [] => some []
  | x :: xs =>
    match f x, listMapOpt f xs with
    | some y, some ys => some (y :: ys)
    | _, _ => none

/-- Cleaning followed by date derivation over the whole table; the
vectorized to_datetime fails the run if any row is invalid. -/
def deriveAll (raws : List RawRow) : Option (List Row) :=
  listMapOpt derive (raws.map clean)

/-- Lexicographic key of a date, used to order group keys the way
pandas sorts datetime values. -/
def Date.key (d : Date) : ℤ ×ₗ ℤ ×ₗ ℤ := toLex (d.year, toLex (d.month, d.day))

instance : LinearOrder Date :=
  LinearOrder.lift' Date.key (by
    intro a b h
    have h1 : (a.year, toLex (a.month, a.day)) = (b.year, toLex (b.month, b.day)) :=
      toLex.injective h
    have h2 : a.year = b.year := congrArg Prod.fst h1
    have h3 : (a.month, a.day) = (b.month, b.day) := toLex.injective (congrArg Prod.snd h1)
    cases a; cases b
    simp_all [Prod.ext_iff])

/-- The group keys produced by df.groupby("date") (line 106): the
distinct date values of the table, in ascending order (groupby's
default sort=True sorts the keys). -/
def groupDates (rows : List Row) : List Date :=
  List.insertionSort (· ≤ ·) (rows.map Row.date).dedup

/-- The grouped table, as iterated by gb.groups.items() (line 112):
each group key paired with the rows of that date.  gb.groups stores the
original positional indices of each group's rows in increasing order,
and df.iloc[indices] selects exactly those rows in that order, which is
the sub-list of the table's rows whose date equals the key. -/
def groups (rows : List Row) : List (Date × List Row) :=
  (groupDates rows).map (fun d => (d, rows.filter (fun r => decide (r.date = d))))

/-- Little-endian base-10 digits of a natural number, with explicit
fuel so that the definition is structurally recursive and evaluates by
kernel reduction. -/
def natDigitsAux : Nat → Nat → List Nat
  | 0, _ => []
  | _ + 1, 0 => []
  | fuel + 1, n + 1 => (n + 1) % 10 :: natDigitsAux fuel ((n + 1) / 10)

/-- Little-endian base-10 digits of a natural number (empty for 0). -/
def natDigits (n : Nat) : List Nat := natDigitsAux n n

/-- Value of a little-endian base-10 digit list. -/
def natOfDigits : List Nat → Nat
  | [] => 0
  | d :: ds => d + 10 * natOfDigits ds

/-- Decimal rendering of a natural number as a character list,
most-significant digit first. -/
def renderNatChars (n : Nat) : List Char :=
  if n = 0 then ['0'] else ((natDigits n).map Nat.digitChar).reverse

/-- Inverse of a decimal digit character. -/
def charToDigit (c : Char) : Option Nat :=
  if c.isDigit then some (c.toNat - 48) else none

/-- Parse a non-empty decimal character list to a natural number. -/
def parseNatChars (cs : List Char) : Option Nat :=
  if cs = [] then none
  else (listMapOpt charToDigit cs.reverse).map natOfDigits

/-- Decimal rendering of an integer (with a leading minus sign when
negative). -/
def renderIntChars (n : Int) : List Char :=
  if n < 0 then '-' :: renderNatChars n.natAbs else renderNatChars n.natAbs

/-- Parse an optionally-signed decimal character list to an integer. -/
def parseIntChars : List Char → Option Int
  | [] => none
  | c :: cs =>
    if c = '-' then (parseNatChars cs).map (fun k => -(Int.ofNat k))
    else (parseNatChars (c :: cs)).map Int.ofNat

/-- True for every character other than the fraction separator. -/
def notSlash (c : Char) : Bool := !(c == '/')

/-- Injective textual encoding of a rational cell value.  pandas to_csv
writes a float cell as its shortest round-trippable decimal repr; the
embedding keeps the cell value exact instead and renders it as
numerator, separator, denominator, which read-back inverts exactly. -/
def renderRatChars (q : ℚ) : List Char :=
  renderIntChars q.num ++ '/' :: renderNatChars q.den

/-- Parse the textual encoding of a rational cell value. -/
def parseRatChars (cs : List Char) : Option ℚ :=
  match cs.dropWhile notSlash with
  | '/' :: denChars => do
      let n ← parseIntChars (cs.takeWhile notSlash)
      let d ← parseNatChars denChars
      pure ((n : ℚ) / (d : ℚ))
  | _ => none

/-- Rendering of a possibly-absent cell: to_csv writes NaN as the empty
cell. -/
def renderOptRatChars : Option ℚ → List Char
  | none => []
  | some q => renderRatChars q

/-- Parsing of a possibly-absent cell: read_csv parses an empty cell in
a numeric column as NaN. -/
def parseOptRatChars (cs : List Char) : Option (Option ℚ) :=
  if cs = [] then some none else (parseRatChars cs).map some

/-- Two-digit zero-padded decimal field, as produced by strftime's
percent-m and percent-d directives. -/
def pad2Chars (n : Nat) : List Char :=
  if n < 10 then '0' :: renderNatChars n else renderNatChars n

/-- Four-digit zero-padded decimal field for the year (all years
accepted by to_datetime have exactly four digits). -/
def pad4Chars (n : Nat) : List Char :=
  List.replicate (4 - (renderNatChars n).length) '0' ++ renderNatChars n

/-- The character form of date.strftime("%Y-%m-%d") (line 114). -/
def formatDateChars (d : Date) : List Char :=
  pad4Chars d.year.toNat ++ '-' :: (pad2Chars d.month.toNat ++ '-' :: pad2Chars d.day.toNat)

/-- date.strftime("%Y-%m-%d"), the date_key of the script. -/
def formatDate (d : Date) : String := ⟨formatDateChars d⟩

/-- The character form of the textual timestamp cell written by to_csv
for a datetime64 column assembled from whole hours. -/
def formatTimestampChars (t : DateTime) : List Char :=
  pad4Chars t.year.toNat ++ '-' ::
    (pad2Chars t.month.toNat ++ '-' ::
      (pad2Chars t.day.toNat ++ ' ' ::
        (pad2Chars t.hour.toNat ++ [':', '0', '0', ':', '0', '0'])))

/-- The textual timestamp cell. -/
def formatTimestamp (t : DateTime) : String := ⟨formatTimestampChars t⟩

/-- The header written by to_csv with index=False (line 121): the 14
schema columns plus the two derived columns, in table order. -/
def csvHeader : List String := COLUMN_NAMES ++ ["date", "timestamp"]

/-- The cells of one CSV data line, in column order: no index cell
(index=False), one cell per column. -/
def serializeRow (r : Row) : List String :=
  [r.station, ⟨renderIntChars r.year⟩, ⟨renderIntChars r.month⟩,
   ⟨renderIntChars r.day⟩, ⟨renderIntChars r.hour⟩,
   ⟨renderRatChars r.wind_direction⟩, ⟨renderRatChars r.wind_speed⟩,
   ⟨renderRatChars r.wind_steadiness⟩, ⟨renderRatChars r.pressure⟩,
   ⟨renderRatChars r.temperature_at_2m⟩, ⟨renderRatChars r.temperature_at_10m⟩,
   ⟨renderOptRatChars r.temperature_at_top⟩, ⟨renderOptRatChars r.relative_humidity⟩,
   ⟨renderOptRatChars r.precipitation⟩, formatDate r.date, formatTimestamp r.timestamp]

/-- A written CSV file: its name, its header line and its data lines
(each a list of cells). -/
structure CsvFile where
  name : String
  header : List String
  rows : List (List String)
deriving DecidableEq

/-- The output filename of a date bucket (line 115). -/
def csvFileName (d : Date) : String := formatDate d ++ "_met_brw_insitu_daily.csv"

/-- The CSV file written for one date bucket (lines 120-121):
reset_index(drop=True) discards the original index and index=False
keeps it out of the file; the data lines are the bucket's rows in
order. -/
def writeCsv (d : Date) (b : List Row) : CsvFile :=
  ⟨csvFileName d, csvHeader, b.map serializeRow⟩

/-- A row as recovered by re-reading a written CSV file with the same
16-column schema: the 14 original fields regain their types, while the
two derived columns come back as their textual representations. -/
structure ParsedRow where
  station : String
  year : Int
  month : Int
  day : Int
  hour : Int
  wind_direction : ℚ
  wind_speed : ℚ
  wind_steadiness : ℚ
  pressure : ℚ
  temperature_at_2m : ℚ
  temperature_at_10m : ℚ
  temperature_at_top : Option ℚ
  relative_humidity : Option ℚ
  precipitation : Option ℚ
  dateText : String
  timestampText : String
deriving DecidableEq

/-- Parse one CSV data line under the 16-column schema (pd.read_csv on
a written bucket file). -/
def parseRow16 (cells : List String) : Option ParsedRow :=
  match cells with
  | [c0, c1, c2, c3, c4, c5, c6, c7, c8, c9, c10, c11, c12, c13, c14, c15] => do
      let year ← parseIntChars c1.data
      let month ← parseIntChars c2.data
      let day ← parseIntChars c3.data
      let hour ← parseIntChars c4.data
      let wd ← parseRatChars c5.data
      let ws ← parseRatChars c6.data
      let wst ← parseRatChars c7.data
      let p ← parseRatChars c8.data
      let t2 ← parseRatChars c9.data
      let t10 ← parseRatChars c10.data
      let tt ← parseOptRatChars c11.data
      let rh ← parseOptRatChars c12.data
      let pr ← parseOptRatChars c13.data
      pure
        { station := c0, year := year, month := month, day := day, hour := hour,
          wind_direction := wd, wind_speed := ws, wind_steadiness := wst,
          pressure := p, temperature_at_2m := t2, temperature_at_10m := t10,
          temperature_at_top := tt, relative_humidity := rh, precipitation := pr,
          dateText := c14, timestampText := c15 }
  | _ => none

/-- The expected re-parse of a row: the 14 original fields unchanged,
the two derived columns in their textual representation. -/
def toParsed (r : Row) : ParsedRow :=
  { station := r.station, year := r.year, month := r.month, day := r.day,
    hour := r.hour, wind_direction := r.wind_direction, wind_speed := r.wind_speed,
    wind_steadiness := r.wind_steadiness, pressure := r.pressure,
    temperature_at_2m := r.temperature_at_2m, temperature_at_10m := r.temperature_at_10m,
    temperature_at_top := r.temperature_at_top, relative_humidity := r.relative_humidity,
    precipitation := r.precipitation, dateText := formatDate r.date,
    timestampText := formatTimestamp r.timestamp }

/-- The fixed hour axis t = np.arange(1, 25) (line 123). -/
def hourAxis : List Nat := (List.range 24).map (fun k => k + 1)

/-- A rendered figure: the four stacked panels of the chart, each
series plotted against the fixed hour axis, plus title and output
name. -/
structure Chart where
  name : String
  title : String
  hours : List Nat
  pressureSeries : List ℚ
  windSpeedSeries : List ℚ
  windDirectionSeries : List ℚ
  t2mSeries : List ℚ
  t10mSeries : List ℚ
  tTopSeries : List (Option ℚ)
deriving DecidableEq

/-- The figure filename of a date bucket (line 117). -/
def figName (d : Date) : String := formatDate d ++ ".png"

/-- The figure suptitle (line 127). -/
def chartTitle (d : Date) : String := formatDate d ++ " NOAA ESRL BRW Data"

/-- Chart rendering for one bucket (lines 123-160).  Every ax.plot call
pairs the fixed 24-element hour axis with a bucket column; matplotlib
raises a ValueError when x and y differ in length, so rendering
succeeds exactly when the bucket has 24 rows, and the failure aborts
the run before plt.savefig. -/
def renderChart (d : Date) (b : List Row) : Option Chart :=
  if b.length = 24 then
    some
      { name := figName d
        title := chartTitle d
        hours := hourAxis
        pressureSeries := b.map Row.pressure
        windSpeedSeries := b.map Row.wind_speed
        windDirectionSeries := b.map Row.wind_direction
        t2mSeries := b.map Row.temperature_at_2m
        t10mSeries := b.map Row.temperature_at_10m
        tTopSeries := b.map Row.temperature_at_top }
  else none

/-- One filesystem effect of the run: a directory creation, a CSV file
write (line 121) or a figure write (line 160). -/
inductive FsEvent where
  | mkdirEvent (path : String)
  | csvEvent (d : Date) (f : CsvFile)
  | figEvent (d : Date) (c : Chart)
deriving DecidableEq

/-- True for the events that create an output artifact (a CSV or image
file), as opposed to a directory. -/
def isOutputWrite : FsEvent → Bool
  | FsEvent.csvEvent _ _ => true
  | FsEvent.figEvent _ _ => true
  | _ => false

/-- The CSV file carried by a CSV-write event, if any. -/
def csvOf : FsEvent → Option CsvFile
  | FsEvent.csvEvent _ f => some f
  | _ => none

/-- The per-bucket loop (lines 112-161): for each bucket, first
to_csv writes the bucket file, then the chart is rendered and saved.
A rendering failure (bucket size other than 24) aborts the loop after
that bucket's CSV write; the Bool records whether the loop completed. -/
def processBuckets : List (Date × List Row) → List FsEvent × Bool
  | [] => ([], true)
  | (d, b) :: rest =>
    match renderChart d b with
    | none => ([FsEvent.csvEvent d (writeCsv d b)], false)
    | some c =>
        let p := processBuckets rest
        (FsEvent.csvEvent d (writeCsv d b) :: FsEvent.figEvent d c :: p.1, p.2)

/-- Directory bootstrapping (lines 84-91): each output directory is
created only when it does not already exist. -/
def dirEvents (outExists figDirExists : Bool) : List FsEvent :=
  (if outExists then [] else [FsEvent.mkdirEvent "met_brw_insitu_daily"]) ++
    (if figDirExists then [] else [FsEvent.mkdirEvent "figures"])

/-- The pipeline downstream of the read as a trace of filesystem
events plus a success flag.  The input is the typed table view of
pd.read_csv's outcome (line 94): an error (in the program, only a
missing or unreadable file; see readCsv / runFromFile for the read
step's lenient handling of malformed rows) aborts the run right after
directory bootstrapping; a to_datetime failure aborts it before the
loop; otherwise the per-bucket loop runs. -/
def run (outExists figDirExists : Bool) (input : Except String (List RawRow)) :
    List FsEvent × Bool :=
  match input with
  | Except.error _ => (dirEvents outExists figDirExists, false)
  | Except.ok raws =>
    match deriveAll raws with
    | none => (dirEvents outExists figDirExists, false)
    | some rows =>
        let p := processBuckets (groups rows)
        (dirEvents outExists figDirExists ++ p.1, p.2)

/-- First-seen order of a key sequence: the distinct values in order of
first occurrence.  This is the iteration order the specification
ascribes to the grouper; it is compared against the order the code
actually uses. -/
def firstSeen (ds : List Date) : List Date :=
  ds.foldl (fun acc d => if d ∈ acc then acc else acc ++ [d]) []

/-- A concrete input row carrying the temperature_at_top and
precipitation sentinels and a non-sentinel relative humidity. -/
def exRaw : RawRow :=
  { station := "BRW", year := 2016, month := 1, day := 1, hour := 1,
    wind_direction := 180, wind_speed := 5, wind_steadiness := 100,
    pressure := 1013, temperature_at_2m := -20, temperature_at_10m := -19,
    temperature_at_top := tTopSentinel, relative_humidity := 80, precipitation := -99 }

/-- A concrete sentinel-free input row for 2016-01-01 hour 1. -/
def exRaw1 : RawRow :=
  { station := "BRW", year := 2016, month := 1, day := 1, hour := 1,
    wind_direction := 180, wind_speed := 5, wind_steadiness := 100,
    pressure := 1013, temperature_at_2m := -20, temperature_at_10m := -19,
    temperature_at_top := -20, relative_humidity := 80, precipitation := 0 }

/-- exRaw1 with an impossible month field. -/
def exRawBad : RawRow :=
  { station := "BRW", year := 2016, month := 13, day := 1, hour := 1,
    wind_direction := 180, wind_speed := 5, wind_steadiness := 100,
    pressure := 1013, temperature_at_2m := -20, temperature_at_10m := -19,
    temperature_at_top := -20, relative_humidity := 80, precipitation := 0 }

/-- The table row obtained from exRaw1 by cleaning and derivation. -/
def exRow1 : Row :=
  { station := "BRW", year := 2016, month := 1, day := 1, hour := 1,
    wind_direction := 180, wind_speed := 5, wind_steadiness := 100,
    pressure := 1013, temperature_at_2m := -20, temperature_at_10m := -19,
    temperature_at_top := some (-20), relative_humidity := some 80,
    precipitation := some 0, date := ⟨2016, 1, 1⟩, timestamp := ⟨2016, 1, 1, 1⟩ }

/-- A table row dated 2016-01-02. -/
def exRowA : Row :=
  { exRow1 with day := 2, date := ⟨2016, 1, 2⟩, timestamp := ⟨2016, 1, 2, 1⟩ }

/-- A table row dated 2016-01-01. -/
def exRowB : Row := exRow1

/-- The date of exRow1. -/
def exDate1 : Date := ⟨2016, 1, 1⟩

/-- A full-size (24-row) date bucket. -/
def exBucket24 : List Row := List.replicate 24 exRow1

/-- The chart rendered from exBucket24. -/
def exChart24 : Chart :=
  { name := figName exDate1, title := chartTitle exDate1, hours := hourAxis,
    pressureSeries := exBucket24.map Row.pressure,
    windSpeedSeries := exBucket24.map Row.wind_speed,
    windDirectionSeries := exBucket24.map Row.wind_direction,
    t2mSeries := exBucket24.map Row.temperature_at_2m,
    t10mSeries := exBucket24.map Row.temperature_at_10m,
    tTopSeries := exBucket24.map Row.temperature_at_top }

/-- exRaw1 with the out-of-range hour 24 on a valid date. -/
def exRawHour24 : RawRow := { exRaw1 with hour := 24 }

/-- The table row the pipeline derives from exRawHour24: the hour
column keeps its 24, while the derived timestamp has silently rolled
over to the next day's midnight. -/
def exRowHour24 : Row :=
  { exRow1 with hour := 24, timestamp := ⟨2016, 1, 2, 0⟩ }

theorem listMapOpt_eq_none_of_mem {α β : Type} (f : α → Option β) :
    ∀ {l : List α} {a : α}, a ∈ l → f a = none → listMapOpt f l = none := by
  intro l
  induction l with
  | nil => intro a ha; cases ha
  | cons x xs ih =>
    intro a ha hfa
    rcases List.mem_cons.1 ha with h | h
    · subst h; rw [listMapOpt, hfa]
    · rw [listMapOpt, ih h hfa]
      cases f x <;> rfl

theorem listMapOpt_some_forall {α β : Type} (f : α → Option β) :
    ∀ {l : List α} {l2 : List β},
      listMapOpt f l = some l2 → ∀ b ∈ l2, ∃ a ∈ l, f a = some b := by
  intro l
  induction l with
  | nil =>
    intro l2 h b hb
    rw [listMapOpt] at h
    cases h; cases hb
  | cons x xs ih =>
    intro l2 h b hb
    rw [listMapOpt] at h
    cases hfx : f x with
    | none => rw [hfx] at h; cases h
    | some y =>
      rw [hfx] at h
      cases hxs : listMapOpt f xs with
      | none => rw [hxs] at h; cases h
      | some ys =>
        rw [hxs] at h
        cases h
        rcases List.mem_cons.1 hb with hby | hbys
        · exact ⟨x, List.mem_cons_self x xs, hby ▸ hfx⟩
        · obtain ⟨a, ha, hfa⟩ := ih hxs b hbys
          exact ⟨a, List.mem_cons_of_mem x ha, hfa⟩

theorem natOfDigits_natDigitsAux :
    ∀ (fuel n : Nat), n ≤ fuel → natOfDigits (natDigitsAux fuel n) = n := by
  intro fuel
  induction fuel with
  | zero =>
    intro n hn
    have h0 : n = 0 := by omega
    subst h0; rfl
  | succ fuel ih =>
    intro n hn
    cases n with
    | zero => rfl
    | succ m =>
      show natOfDigits ((m + 1) % 10 :: natDigitsAux fuel ((m + 1) / 10)) = m + 1
      rw [natOfDigits, ih ((m + 1) / 10) (by omega)]
      omega

theorem natDigitsAux_lt_ten :
    ∀ (fuel n d : Nat), d ∈ natDigitsAux fuel n → d < 10 := by
  intro fuel
  induction fuel with
  | zero => intro n d hd; simp [natDigitsAux] at hd
  | succ fuel ih =>
    intro n d hd
    cases n with
    | zero => simp [natDigitsAux] at hd
    | succ m =>
      rw [natDigitsAux] at hd
      rcases List.mem_cons.1 hd with h | h
      · omega
      · exact ih _ _ h

theorem natDigitsAux_ne_nil :
    ∀ (fuel n : Nat), n ≠ 0 → n ≤ fuel → natDigitsAux fuel n ≠ [] := by
  intro fuel n h0 hle
  cases fuel with
  | zero => omega
  | succ fuel =>
    cases n with
    | zero => omega
    | succ m => simp [natDigitsAux]

theorem charToDigit_digitChar {d : Nat} (h : d < 10) :
    charToDigit (Nat.digitChar d) = some d := by
  interval_cases d <;> decide

theorem digitChar_isDigit {d : Nat} (h : d < 10) : (Nat.digitChar d).isDigit = true := by
  interval_cases d <;> decide

theorem listMapOpt_charToDigit_digitChar :
    ∀ (ds : List Nat), (∀ d ∈ ds, d < 10) →
      listMapOpt charToDigit (ds.map Nat.digitChar) = some ds := by
  intro ds
  induction ds with
  | nil => intro _; rfl
  | cons d ds ih =>
    intro h
    rw [List.map_cons, listMapOpt, charToDigit_digitChar (h d (List.mem_cons_self d ds)),
      ih (fun x hx => h x (List.mem_cons_of_mem d hx))]

theorem natDigits_ne_nil (n : Nat) (hn : n ≠ 0) : natDigits n ≠ [] :=
  natDigitsAux_ne_nil n n hn le_rfl

theorem natDigits_lt_ten (n d : Nat) (hd : d ∈ natDigits n) : d < 10 :=
  natDigitsAux_lt_ten n n d hd

theorem natOfDigits_natDigits (n : Nat) : natOfDigits (natDigits n) = n :=
  natOfDigits_natDigitsAux n n le_rfl

theorem parseNatChars_renderNatChars (n : Nat) :
    parseNatChars (renderNatChars n) = some n := by
  by_cases hn : n = 0
  · subst hn; decide
  · rw [renderNatChars, if_neg hn, parseNatChars,
      if_neg (by simp [List.reverse_eq_nil_iff, List.map_eq_nil_iff, natDigits_ne_nil n hn]),
      List.reverse_reverse,
      listMapOpt_charToDigit_digitChar (natDigits n) (natDigits_lt_ten n)]
    rw [Option.map_some']
    rw [natOfDigits_natDigits n]

theorem renderNatChars_ne_nil (n : Nat) : renderNatChars n ≠ [] := by
  by_cases hn : n = 0
  · subst hn; decide
  · rw [renderNatChars, if_neg hn]
    simp only [ne_eq, List.reverse_eq_nil_iff, List.map_eq_nil_iff]
    exact natDigits_ne_nil n hn

theorem renderNatChars_isDigit (n : Nat) :
    ∀ c ∈ renderNatChars n, c.isDigit = true := by
  intro c hc
  rw [renderNatChars] at hc
  split at hc
  · rcases List.mem_singleton.1 hc with rfl; decide
  · rw [List.mem_reverse] at hc
    obtain ⟨d, hd, rfl⟩ := List.mem_map.1 hc
    exact digitChar_isDigit (natDigits_lt_ten _ _ hd)

theorem isDigit_ne_minus {c : Char} (h : c.isDigit = true) : c ≠ '-' := by
  intro he
  subst he
  exact absurd h (by decide)

theorem isDigit_ne_slash {c : Char} (h : c.isDigit = true) : c ≠ '/' := by
  intro he
  subst he
  exact absurd h (by decide)

theorem parseIntChars_renderIntChars (n : Int) :
    parseIntChars (renderIntChars n) = some n := by
  rw [renderIntChars]
  by_cases hn : n < 0
  · rw [if_pos hn]
    show parseIntChars ('-' :: renderNatChars n.natAbs) = some n
    rw [parseIntChars, if_pos rfl, parseNatChars_renderNatChars, Option.map_some']
    congr 1
    rw [Int.ofNat_eq_natCast]
    omega
  · rw [if_neg hn]
    obtain ⟨c, cs, hcs⟩ := List.exists_cons_of_ne_nil (renderNatChars_ne_nil n.natAbs)
    have hcdig : c.isDigit = true :=
      renderNatChars_isDigit n.natAbs c (hcs ▸ List.mem_cons_self c cs)
    rw [hcs, parseIntChars, if_neg (isDigit_ne_minus hcdig), ← hcs,
      parseNatChars_renderNatChars, Option.map_some']
    congr 1
    rw [Int.ofNat_eq_natCast]
    omega

theorem renderIntChars_notSlash (n : Int) :
    ∀ c ∈ renderIntChars n, notSlash c = true := by
  intro c hc
  have hne : c ≠ '/' := by
    rw [renderIntChars] at hc
    split at hc
    · rcases List.mem_cons.1 hc with rfl | h
      · decide
      · exact isDigit_ne_slash (renderNatChars_isDigit _ c h)
    · exact isDigit_ne_slash (renderNatChars_isDigit _ c hc)
  simp [notSlash, hne]

theorem takeWhile_append_cons {α : Type} (p : α → Bool) :
    ∀ (xs : List α) (y : α) (ys : List α), (∀ c ∈ xs, p c = true) → p y = false →
      (xs ++ y :: ys).takeWhile p = xs ∧ (xs ++ y :: ys).dropWhile p = y :: ys := by
  intro xs
  induction xs with
  | nil =>
    intro y ys _ hy
    constructor
    · simp [List.takeWhile_cons, hy]
    · simp [List.dropWhile_cons, hy]
  | cons x xs ih =>
    intro y ys h hy
    have hx : p x = true := h x (List.mem_cons_self x xs)
    have hrest := ih y ys (fun c hc => h c (List.mem_cons_of_mem x hc)) hy
    constructor
    · simp [List.takeWhile_cons, hx, hrest.1]
    · simp [List.dropWhile_cons, hx, hrest.2]

theorem parseRatChars_renderRatChars (q : ℚ) :
    parseRatChars (renderRatChars q) = some q := by
  have hsplit :=
    takeWhile_append_cons notSlash (renderIntChars q.num) '/' (renderNatChars q.den)
      (renderIntChars_notSlash q.num) (by decide)
  unfold parseRatChars
  rw [renderRatChars, hsplit.2, hsplit.1]
  simp [parseIntChars_renderIntChars, parseNatChars_renderNatChars, Rat.num_div_den]

theorem renderRatChars_ne_nil (q : ℚ) : renderRatChars q ≠ [] := by
  rw [renderRatChars]
  exact List.append_ne_nil_of_right_ne_nil _ (List.cons_ne_nil _ _)

theorem parseOptRatChars_renderOptRatChars (o : Option ℚ) :
    parseOptRatChars (renderOptRatChars o) = some o := by
  cases o with
  | none => rfl
  | some q =>
    rw [renderOptRatChars, parseOptRatChars, if_neg (renderRatChars_ne_nil q),
      parseRatChars_renderRatChars]
    rfl

theorem data_mk (cs : List Char) : (String.mk cs).data = cs := rfl

theorem parseRow16_serializeRow (r : Row) :
    parseRow16 (serializeRow r) = some (toParsed r) := by
  simp only [serializeRow, parseRow16, data_mk, parseIntChars_renderIntChars,
    parseRatChars_renderRatChars, parseOptRatChars_renderOptRatChars,
    Option.pure_def, Option.some_bind]
  rfl

theorem listMapOpt_parseRow16_serializeRow (b : List Row) :
    listMapOpt parseRow16 (b.map serializeRow) = some (b.map toParsed) := by
  induction b with
  | nil => rfl
  | cons r rs ih =>
    rw [List.map_cons, List.map_cons, listMapOpt, parseRow16_serializeRow, ih]

theorem derive_date_eq_fields (c : CleanRow) (r : Row) (h : derive c = some r) :
    r.date = ⟨r.year, r.month, r.day⟩ := by
  rw [derive] at h
  split at h
  · split at h
    · cases h; rfl
    · cases h
  · cases h

theorem mem_groupDates (rows : List Row) (d : Date) :
    d ∈ groupDates rows ↔ d ∈ rows.map Row.date := by
  rw [groupDates, (List.perm_insertionSort (α := Date) (· ≤ ·) _).mem_iff, List.mem_dedup]

theorem groupDates_nodup (rows : List Row) : (groupDates rows).Nodup := by
  rw [groupDates]
  exact ((List.perm_insertionSort (α := Date) (· ≤ ·) _).nodup_iff).2 (List.nodup_dedup _)

theorem groupDates_sorted (rows : List Row) : (groupDates rows).Sorted (· ≤ ·) := by
  rw [groupDates]
  exact List.sorted_insertionSort (· ≤ ·) _

theorem groups_map_fst (rows : List Row) :
    (groups rows).map Prod.fst = groupDates rows := by
  rw [groups, List.map_map]
  exact List.map_id _

theorem count_bucket (rows : List Row) (d : Date) (a : Row) :
    (rows.filter (fun r => decide (r.date = d))).count a =
      if a.date = d then rows.count a else 0 := by
  by_cases h : a.date = d
  · rw [if_pos h]
    exact List.count_filter (by simp [h])
  · rw [if_neg h, List.count_eq_zero]
    intro hmem
    rw [List.mem_filter] at hmem
    exact h (of_decide_eq_true hmem.2)

theorem sum_map_ite_count (x : Date) (c : Nat) :
    ∀ (keys : List Date), keys.Nodup →
      (keys.map (fun d => if x = d then c else 0)).sum = if x ∈ keys then c else 0 := by
  intro keys
  induction keys with
  | nil => intro _; simp
  | cons k ks ih =>
    intro hnd
    rw [List.map_cons, List.sum_cons, ih (List.nodup_cons.1 hnd).2]
    by_cases hxk : x = k
    · subst hxk
      rw [if_pos rfl, if_neg (List.nodup_cons.1 hnd).1, if_pos (List.mem_cons_self x ks)]
      omega
    · rw [if_neg hxk]
      by_cases hxks : x ∈ ks
      · rw [if_pos hxks, if_pos (List.mem_cons_of_mem k hxks)]
        omega
      · rw [if_neg hxks, if_neg (by simp [List.mem_cons, hxk, hxks])]

theorem groups_flatten_perm (rows : List Row) :
    (((groups rows).map Prod.snd).flatten).Perm rows := by
  rw [List.perm_iff_count]
  intro a
  rw [List.count_flatten, groups, List.map_map, List.map_map]
  have hmapeq :
      ((List.count a ∘ Prod.snd) ∘ fun d => (d, rows.filter (fun r => decide (r.date = d)))) =
        fun d => if a.date = d then rows.count a else 0 := by
    funext d
    simp only [Function.comp_apply]
    exact count_bucket rows d a
  rw [hmapeq, sum_map_ite_count a.date (rows.count a) (groupDates rows) (groupDates_nodup rows)]
  by_cases hmem : a ∈ rows
  · rw [if_pos ((mem_groupDates rows a.date).2 (List.mem_map_of_mem Row.date hmem))]
  · have hc : rows.count a = 0 := List.count_eq_zero.2 hmem
    rw [hc]
    split <;> rfl

theorem processBuckets_all_csv :
    ∀ (bs : List (Date × List Row)), (∀ p ∈ bs, p.2.length = 24) →
      (processBuckets bs).1.filterMap csvOf = bs.map (fun p => writeCsv p.1 p.2) := by
  intro bs
  induction bs with
  | nil => intro _; rfl
  | cons hd tl ih =>
    obtain ⟨d, b⟩ := hd
    intro h
    have hb : b.length = 24 := h (d, b) (List.mem_cons_self _ _)
    rw [processBuckets, renderChart, if_pos hb]
    simp only [List.filterMap_cons, csvOf, List.map_cons]
    rw [ih (fun p hp => h p (List.mem_cons_of_mem _ hp))]

theorem processBuckets_fig_preceded :
    ∀ (bs : List (Date × List Row)) (pre post : List FsEvent) (d : Date) (c : Chart),
      (processBuckets bs).1 = pre ++ FsEvent.figEvent d c :: post →
      ∃ f : CsvFile, FsEvent.csvEvent d f ∈ pre := by
  intro bs
  induction bs with
  | nil =>
    intro pre post d c h
    rw [processBuckets] at h
    exact absurd h.symm (List.append_ne_nil_of_right_ne_nil _ (List.cons_ne_nil _ _))
  | cons hd tl ih =>
    obtain ⟨d0, b0⟩ := hd
    intro pre post d c h
    rw [processBuckets] at h
    cases hrc : renderChart d0 b0 with
    | none =>
      rw [hrc] at h
      cases pre with
      | nil => simp at h
      | cons x xs =>
        rw [List.cons_append] at h
        have htail : ([] : List FsEvent) = xs ++ FsEvent.figEvent d c :: post :=
          List.tail_eq_of_cons_eq h
        exact absurd htail.symm
          (List.append_ne_nil_of_right_ne_nil _ (List.cons_ne_nil _ _))
    | some ch =>
      rw [hrc] at h
      cases pre with
      | nil => simp at h
      | cons x xs =>
        rw [List.cons_append] at h
        have hx : FsEvent.csvEvent d0 (writeCsv d0 b0) = x := List.head_eq_of_cons_eq h
        have htail :
            FsEvent.figEvent d0 ch :: (processBuckets tl).1 =
              xs ++ FsEvent.figEvent d c :: post :=
          List.tail_eq_of_cons_eq h
        cases xs with
        | nil =>
          have hhead : FsEvent.figEvent d0 ch = FsEvent.figEvent d c :=
            List.head_eq_of_cons_eq htail
          have hd0 : d0 = d := by injection hhead
          exact ⟨writeCsv d0 b0, by rw [← hx, hd0]; exact List.mem_singleton_self _⟩
        | cons y ys =>
          rw [List.cons_append] at htail
          have hrest : (processBuckets tl).1 = ys ++ FsEvent.figEvent d c :: post :=
            List.tail_eq_of_cons_eq htail
          obtain ⟨f, hf⟩ := ih ys post d c hrest
          exact ⟨f, List.mem_cons_of_mem x (List.mem_cons_of_mem y hf)⟩

theorem fig_not_mem_dirEvents (oe fe : Bool) (d : Date) (c : Chart) :
    FsEvent.figEvent d c ∉ dirEvents oe fe := by
  cases oe <;> cases fe <;> simp [dirEvents]

theorem tTopSentinel_eq : tTopSentinel = -9999 / 10 := by
  have hn : ((tTopSentinel.num : ℤ) : ℚ) = -9999 := by norm_num [tTopSentinel]
  have hd : ((tTopSentinel.den : ℕ) : ℚ) = 10 := by norm_num [tTopSentinel]
  rw [← hn, ← hd, Rat.num_div_den]

/-- C1: The grouping step partitions the input rows into buckets keyed
by the derived date: every bucket's key equals the calendar date built
from the (year, month, day) fields of each of its rows, the bucket keys
are pairwise distinct with exactly one bucket per distinct date value
occurring in the table, and concatenating all buckets is a permutation
of the table's rows with no duplicates and no omissions. -/
theorem grouping_partitions (raws : List RawRow) (rows : List Row)
    (h : deriveAll raws = some rows) :
    (∀ p ∈ groups rows, ∀ r ∈ p.2, r.date = ⟨r.year, r.month, r.day⟩ ∧ r.date = p.1) ∧
    ((groups rows).map Prod.fst).Nodup ∧
    (∀ d : Date, d ∈ (groups rows).map Prod.fst ↔ d ∈ rows.map Row.date) ∧
    ((((groups rows).map Prod.snd).flatten).Perm rows) := by
  refine ⟨?_, ?_, ?_, groups_flatten_perm rows⟩
  · intro p hp r hr
    obtain ⟨d, hd, rfl⟩ := List.mem_map.1 hp
    have hr2 : r ∈ rows.filter (fun r => decide (r.date = d)) := hr
    rw [List.mem_filter] at hr2
    obtain ⟨c, hc, hdc⟩ := listMapOpt_some_forall derive h r hr2.1
    exact ⟨derive_date_eq_fields c r hdc, of_decide_eq_true hr2.2⟩
  · rw [groups_map_fst]
    exact groupDates_nodup rows
  · intro d
    rw [groups_map_fst]
    exact mem_groupDates rows d

/-- C1 witness: the partition properties evaluated on a concrete
one-row input. -/
theorem grouping_partitions_witness :
    ((groups [exRow1]).map Prod.fst).Nodup ∧
    ((((groups [exRow1]).map Prod.snd).flatten).Perm [exRow1]) := by
  have h := grouping_partitions [exRaw1] [exRow1] (by decide)
  exact ⟨h.2.1, h.2.2.2⟩

/-- C2: Sentinel cleaning replaces, by exact numeric equality,
temperature_at_top values equal to -999.9 (= -9999/10),
relative_humidity values equal to -99 and precipitation values equal
to -99 with the absent marker; every other value in those three
columns, and every value in every other column, is unchanged. -/
theorem sentinel_cleaning (r : RawRow) :
    (r.temperature_at_top = -9999 / 10 → (clean r).temperature_at_top = none) ∧
    (r.temperature_at_top ≠ -9999 / 10 →
      (clean r).temperature_at_top = some r.temperature_at_top) ∧
    (r.relative_humidity = -99 → (clean r).relative_humidity = none) ∧
    (r.relative_humidity ≠ -99 → (clean r).relative_humidity = some r.relative_humidity) ∧
    (r.precipitation = -99 → (clean r).precipitation = none) ∧
    (r.precipitation ≠ -99 → (clean r).precipitation = some r.precipitation) ∧
    (clean r).station = r.station ∧ (clean r).year = r.year ∧
    (clean r).month = r.month ∧ (clean r).day = r.day ∧ (clean r).hour = r.hour ∧
    (clean r).wind_direction = r.wind_direction ∧ (clean r).wind_speed = r.wind_speed ∧
    (clean r).wind_steadiness = r.wind_steadiness ∧ (clean r).pressure = r.pressure ∧
    (clean r).temperature_at_2m = r.temperature_at_2m ∧
    (clean r).temperature_at_10m = r.temperature_at_10m := by
  refine ⟨fun h => ?_, fun h => ?_, fun h => ?_, fun h => ?_, fun h => ?_, fun h => ?_,
    rfl, rfl, rfl, rfl, rfl, rfl, rfl, rfl, rfl, rfl, rfl⟩ <;>
    simp [clean, tTopSentinel_eq, h]

/-- C2 witness: cleaning evaluated on a concrete row carrying the
temperature and precipitation sentinels and a non-sentinel humidity. -/
theorem sentinel_cleaning_witness :
    (clean exRaw).temperature_at_top = none ∧
    (clean exRaw).relative_humidity = some 80 ∧
    (clean exRaw).precipitation = none := by
  have h := sentinel_cleaning exRaw
  exact ⟨h.1 tTopSentinel_eq, h.2.2.2.1 (by norm_num [exRaw]), h.2.2.2.2.1 rfl⟩

/-- C3: Within every date bucket, the rows appear in the same relative
order they had in the source table: each bucket is a sublist (an
order-preserving selection) of the table's row sequence, so the
partition is stable and never re-sorts rows inside a bucket. -/
theorem bucket_preserves_source_order (rows : List Row) (p : Date × List Row)
    (hp : p ∈ groups rows) : p.2.Sublist rows := by
  obtain ⟨d, _, rfl⟩ := List.mem_map.1 hp
  exact List.filter_sublist rows

/-- C3 witness: the 2016-01-01 bucket of a concrete two-row table (in
reversed date order) is a sublist of the table. -/
theorem bucket_preserves_source_order_witness : ([exRowB] : List Row).Sublist [exRowA, exRowB] :=
  bucket_preserves_source_order [exRowA, exRowB] (⟨2016, 1, 1⟩, [exRowB]) (by decide)

/-- C4: For each date bucket the CSV emitter writes exactly one file,
named by the bucket date in strftime %Y-%m-%d form followed by
_met_brw_insitu_daily.csv, whose header is the 14 original column
names followed by date and timestamp (16 columns in that order),
followed by the bucket's rows in original order with exactly one cell
per column and no row-index column. -/
theorem csv_emitter_per_bucket (bs : List (Date × List Row))
    (h : ∀ p ∈ bs, p.2.length = 24) :
    (processBuckets bs).1.filterMap csvOf = bs.map (fun p => writeCsv p.1 p.2) ∧
    ∀ p ∈ bs,
      (writeCsv p.1 p.2).name = formatDate p.1 ++ "_met_brw_insitu_daily.csv" ∧
      (writeCsv p.1 p.2).header =
        ["station", "year", "month", "day", "hour", "wind_direction", "wind_speed",
         "wind_steadiness", "pressure", "temperature_at_2m", "temperature_at_10m",
         "temperature_at_top", "relative_humidity", "precipitation", "date",
         "timestamp"] ∧
      (writeCsv p.1 p.2).rows = p.2.map serializeRow ∧
      ∀ r ∈ p.2, (serializeRow r).length = 16 := by
  refine ⟨processBuckets_all_csv bs h, ?_⟩
  intro p _
  exact ⟨rfl, rfl, rfl, fun r _ => rfl⟩

/-- C4 witness: the emitted file of a concrete full-size bucket. -/
theorem csv_emitter_per_bucket_witness :
    (processBuckets [(exDate1, exBucket24)]).1.filterMap csvOf =
      [(exDate1, exBucket24)].map (fun p => writeCsv p.1 p.2) ∧
    (writeCsv exDate1 exBucket24).name = formatDate exDate1 ++ "_met_brw_insitu_daily.csv" := by
  have h := csv_emitter_per_bucket [(exDate1, exBucket24)] (by decide)
  exact ⟨h.1, (h.2 (exDate1, exBucket24) (List.mem_singleton_self _)).1⟩

/-- C5: Round trip: re-parsing every data line of a bucket's written
CSV file under the same 16-column schema succeeds and yields exactly
the bucket's rows, with the 14 original fields recovered unchanged and
the two derived columns recovered in their textual representation. -/
theorem csv_round_trip (d : Date) (b : List Row) :
    listMapOpt parseRow16 (writeCsv d b).rows = some (b.map toParsed) ∧
    ∀ r : Row,
      (toParsed r).station = r.station ∧ (toParsed r).year = r.year ∧
      (toParsed r).month = r.month ∧ (toParsed r).day = r.day ∧
      (toParsed r).hour = r.hour ∧ (toParsed r).wind_direction = r.wind_direction ∧
      (toParsed r).wind_speed = r.wind_speed ∧
      (toParsed r).wind_steadiness = r.wind_steadiness ∧
      (toParsed r).pressure = r.pressure ∧
      (toParsed r).temperature_at_2m = r.temperature_at_2m ∧
      (toParsed r).temperature_at_10m = r.temperature_at_10m ∧
      (toParsed r).temperature_at_top = r.temperature_at_top ∧
      (toParsed r).relative_humidity = r.relative_humidity ∧
      (toParsed r).precipitation = r.precipitation ∧
      (toParsed r).dateText = formatDate r.date ∧
      (toParsed r).timestampText = formatTimestamp r.timestamp := by
  constructor
  · exact listMapOpt_parseRow16_serializeRow b
  · intro r
    exact ⟨rfl, rfl, rfl, rfl, rfl, rfl, rfl, rfl, rfl, rfl, rfl, rfl, rfl, rfl, rfl, rfl⟩

/-- C6 counterexample: on a concrete two-row input whose dates first
appear as 2016-01-02 then 2016-01-01, the grouper iterates the buckets
in sorted order 2016-01-01, 2016-01-02, not in first-seen order. -/
theorem grouper_first_seen_counterexample :
    (groups [exRowA, exRowB]).map Prod.fst ≠ firstSeen ([exRowA, exRowB].map Row.date) := by
  decide

/-- C6 amended: the grouper iterates the date buckets in ascending
date order (pandas groupby sorts its keys): the sequence of bucket
keys is sorted, duplicate-free, and contains exactly the distinct
dates of the table; it agrees with first-seen order only when the
distinct dates happen to first appear in ascending order. -/
theorem grouper_sorted_iteration (rows : List Row) :
    ((groups rows).map Prod.fst).Sorted (· ≤ ·) ∧
    ((groups rows).map Prod.fst).Nodup ∧
    ∀ d : Date, d ∈ (groups rows).map Prod.fst ↔ d ∈ rows.map Row.date := by
  rw [groups_map_fst]
  exact ⟨groupDates_sorted rows, groupDates_nodup rows, mem_groupDates rows⟩

/-- C7 counterexample: a concrete one-row date bucket does not render:
ax.plot raises on the length mismatch with the fixed 24-element hour
axis, so no image is produced, contradicting the claim that such
buckets still render. -/
theorem chart_small_bucket_counterexample :
    ([exRowB] : List Row).length ≠ 24 ∧ renderChart exDate1 [exRowB] = none := by
  exact ⟨by decide, by decide⟩

/-- C7 amended: a date bucket whose row count differs from 24 does not
render: ax.plot raises a ValueError on the mismatch with the fixed
24-element hour axis (which is independent of the row count) and the
run aborts without writing that image; a bucket renders exactly when
it has 24 rows, each series plotted against the fixed hour axis. -/
theorem chart_renders_iff_full_bucket (d : Date) (b : List Row) :
    (b.length ≠ 24 → renderChart d b = none) ∧
    (b.length = 24 →
      renderChart d b =
        some
          { name := formatDate d ++ ".png",
            title := formatDate d ++ " NOAA ESRL BRW Data",
            hours := hourAxis,
            pressureSeries := b.map Row.pressure,
            windSpeedSeries := b.map Row.wind_speed,
            windDirectionSeries := b.map Row.wind_direction,
            t2mSeries := b.map Row.temperature_at_2m,
            t10mSeries := b.map Row.temperature_at_10m,
            tTopSeries := b.map Row.temperature_at_top }) ∧
    hourAxis.length = 24 := by
  refine ⟨fun h => ?_, fun h => ?_, by decide⟩
  · rw [renderChart, if_neg h]
  · rw [renderChart, if_pos h]
    rfl

/-- C7 witness: a concrete short bucket fails to render, a concrete
24-row bucket renders. -/
theorem chart_renders_iff_full_bucket_witness :
    renderChart exDate1 [exRowA] = none ∧
    renderChart exDate1 exBucket24 = some exChart24 := by
  have h1 := chart_renders_iff_full_bucket exDate1 [exRowA]
  have h24 := chart_renders_iff_full_bucket exDate1 exBucket24
  exact ⟨h1.1 (by decide), h24.2.1 (by decide)⟩

/-- C8 counterexample: hour 24 on the valid date 2016-01-01 does not
fail the run at the date-derivation step: derivation succeeds, the
timestamp silently rolls over to 2016-01-02 00:00, and the run goes on
to write output. -/
theorem hour_rollover_counterexample :
    ¬(0 ≤ (24 : Int) ∧ (24 : Int) ≤ 23) ∧
    deriveAll [exRawHour24] = some [exRowHour24] ∧
    exRowHour24.timestamp = ⟨2016, 1, 2, 0⟩ ∧
    (run true true (Except.ok [exRawHour24])).1.filter isOutputWrite ≠ [] := by
  exact ⟨by decide, by decide, rfl, by decide⟩

/-- C8 amended: a row whose (year, month, day) fields do not form a
valid (datetime64-representable) calendar date fails the run at the
date-derivation step with nothing substituted and no output written;
the hour field, however, is not validated: to_datetime adds it as a
timedelta, so on a valid date the derivation succeeds for any hour
whose resulting instant is representable, silently rolling an
out-of-range hour into the timestamp's day. -/
theorem invalid_date_fails_hour_rolls (raws : List RawRow) (r : RawRow) (oe fe : Bool)
    (hmem : r ∈ raws) (hbad : ¬validDate r.year r.month r.day) :
    (deriveAll raws = none ∧ (run oe fe (Except.ok raws)).2 = false ∧
      (run oe fe (Except.ok raws)).1.filter isOutputWrite = []) ∧
    (∀ c : CleanRow, validDate c.year c.month c.day →
      minInstantHours ≤ instantHours c.year c.month c.day c.hour →
      instantHours c.year c.month c.day c.hour ≤ maxInstantHours →
      derive c = some
        { station := c.station, year := c.year, month := c.month, day := c.day,
          hour := c.hour, wind_direction := c.wind_direction,
          wind_speed := c.wind_speed, wind_steadiness := c.wind_steadiness,
          pressure := c.pressure, temperature_at_2m := c.temperature_at_2m,
          temperature_at_10m := c.temperature_at_10m,
          temperature_at_top := c.temperature_at_top,
          relative_humidity := c.relative_humidity,
          precipitation := c.precipitation, date := ⟨c.year, c.month, c.day⟩,
          timestamp := timestampOfInstant (instantHours c.year c.month c.day c.hour) }) := by
  constructor
  · have hd : derive (clean r) = none := by
      have hbad2 : ¬validDate (clean r).year (clean r).month (clean r).day := hbad
      rw [derive, if_neg hbad2]
    have hall : deriveAll raws = none :=
      listMapOpt_eq_none_of_mem derive (List.mem_map_of_mem clean hmem) hd
    have hrun : run oe fe (Except.ok raws) = (dirEvents oe fe, false) := by
      rw [run, hall]
    rw [hrun]
    refine ⟨hall, rfl, ?_⟩
    cases oe <;> cases fe <;> rfl
  · intro c hv h1 h2
    rw [derive, if_pos hv, if_pos ⟨h1, h2⟩]

/-- C8 witness: the invalid-date direction at a concrete month-13 row,
and the hour-leniency direction at a concrete hour-24 row. -/
theorem invalid_date_fails_hour_rolls_witness :
    deriveAll [exRawBad] = none ∧ derive (clean exRawHour24) = some exRowHour24 := by
  have h := invalid_date_fails_hour_rolls [exRawBad] exRawBad true true
    (by decide) (by decide)
  refine ⟨h.1.1, ?_⟩
  have h2 := h.2 (clean exRawHour24) (by decide) (by decide) (by decide)
  exact h2.trans (by decide)

theorem dirEvents_split_no_fig (oe fe : Bool) (pre post : List FsEvent) (d : Date)
    (c : Chart) (h : dirEvents oe fe = pre ++ FsEvent.figEvent d c :: post) : False := by
  have hmem : FsEvent.figEvent d c ∈ dirEvents oe fe := by
    rw [h]
    exact List.mem_append_right _ (List.mem_cons_self _ _)
  exact fig_not_mem_dirEvents oe fe d c hmem

/-- C10: In every run trace, each image write for a date is preceded
by the CSV write of that same date: within the per-bucket loop the
bucket's CSV file is written before its chart is rendered and saved,
so a chart is never produced without that date's CSV already
existing. -/
theorem csv_written_before_chart (oe fe : Bool) (input : Except String (List RawRow))
    (pre post : List FsEvent) (d : Date) (c : Chart)
    (h : (run oe fe input).1 = pre ++ FsEvent.figEvent d c :: post) :
    ∃ f : CsvFile, FsEvent.csvEvent d f ∈ pre := by
  cases input with
  | error e => exact absurd h (fun hh => dirEvents_split_no_fig oe fe pre post d c hh)
  | ok raws =>
    cases hda : deriveAll raws with
    | none =>
      have hrun : run oe fe (Except.ok raws) = (dirEvents oe fe, false) := by
        rw [run, hda]
      rw [hrun] at h
      exact absurd h (fun hh => dirEvents_split_no_fig oe fe pre post d c hh)
    | some rows =>
      have hrun : (run oe fe (Except.ok raws)).1 =
          dirEvents oe fe ++ (processBuckets (groups rows)).1 := by
        rw [run, hda]
      rw [hrun] at h
      rcases List.append_eq_append_iff.1 h with ⟨a2, hpre, hP⟩ | ⟨c2, hdirs, hfig⟩
      · obtain ⟨f, hf⟩ := processBuckets_fig_preceded (groups rows) a2 post d c hP
        refine ⟨f, ?_⟩
        rw [hpre]
        exact List.mem_append_right _ hf
      · cases c2 with
        | nil =>
          have hP : (processBuckets (groups rows)).1 = [] ++ FsEvent.figEvent d c :: post := by
            simpa using hfig.symm
          obtain ⟨f, hf⟩ := processBuckets_fig_preceded (groups rows) [] post d c hP
          exact absurd hf (List.not_mem_nil _)
        | cons z zs =>
          exfalso
          have hz : FsEvent.figEvent d c = z := List.head_eq_of_cons_eq hfig
          have hzmem : z ∈ dirEvents oe fe := by
            rw [hdirs]
            exact List.mem_append_right _ (List.mem_cons_self _ _)
          rw [← hz] at hzmem
          exact fig_not_mem_dirEvents oe fe d c hzmem

/-- C10 witness: on a concrete 24-row single-date input, the image
write is preceded in the trace by that date's CSV write. -/
theorem csv_written_before_chart_witness :
    ∃ f : CsvFile, FsEvent.csvEvent exDate1 f ∈
      [FsEvent.csvEvent exDate1 (writeCsv exDate1 exBucket24)] :=
  csv_written_before_chart true true (Except.ok (List.replicate 24 exRaw1))
    [FsEvent.csvEvent exDate1 (writeCsv exDate1 exBucket24)] [] exDate1 exChart24
    (by decide)
